import Mathlib

/-!
Shallow embedding of the client-side state synchronization logic of
`gnome15/src/main/python/gnome15/g15desktop.py` (classes `G15Screen` and
`G15DesktopComponent`).

Python dictionaries are modelled as association lists `List (String × α)`
with unique keys in every reachable state: lookup finds the first matching
entry, assignment overwrites in place or appends, and deletion removes the
key.  Remote D-Bus calls made by the handlers (`GetDeviceInformation`,
`IsAttentionRequested`, `GetMessage`, `GetPriority`, `GetSequenceNumber`,
`GetTitle`, `GetScreens`, `GetPageSequenceNumbers`) are modelled as a fixed
environment `Remote` of total functions.  Calls to the abstract GUI hook
`rebuild_desktop_component` are counted in a `rebuilds` field so that
"the handler invoked the rebuild hook" is observable.  Handlers that can
raise an unhandled Python exception (`KeyError` on a missing screen) return
`Except ComponentState ComponentState`, where `.error s` carries the state
at the moment the exception escapes.
-/

namespace G15Desktop

/-- Lookup of `m[k]` in a Python-dict model: first entry with the key. -/
def lookupA {α : Type} : List (String × α) → String → Option α
  | [], _ => none
  | (k2, v) :: rest, k => if k2 = k then some v else lookupA rest k

/-- Python `k in m`. -/
def memA {α : Type} (m : List (String × α)) (k : String) : Bool :=
  (lookupA m k).isSome

/-- Python `m[k] = v`: overwrite in place if the key exists, else append
(insertion order preserved, as for a Python dict). -/
def setA {α : Type} : List (String × α) → String → α → List (String × α)
  | [], k, v => [(k, v)]
  | (k2, v2) :: rest, k, v =>
      if k2 = k then (k2, v) :: rest else (k2, v2) :: setA rest k v

/-- Python `del m[k]` on a dict (whose keys are unique): remove the key. -/
def eraseA {α : Type} : List (String × α) → String → List (String × α)
  | [], _ => []
  | (k2, v2) :: rest, k =>
      if k2 = k then eraseA rest k else (k2, v2) :: eraseA rest k

/-- `G15Screen.__init__` fields: client-side representation of a remote
screen (`g15desktop.py` lines 59-64).  `items` maps a page sequence number
rendered with `str` to the page title; `message` starts as `None`. -/
structure G15Screen where
  path : String
  device_model_fullname : String
  device_uid : String
  items : List (String × String)
  message : Option String
  deriving DecidableEq, Repr

/-- The mutable fields of `G15DesktopComponent` that the reconciliation
handlers touch, plus a counter of `rebuild_desktop_component` invocations. -/
structure ComponentState where
  screens : List (String × G15Screen)
  service : Option Unit
  connected : Bool
  attention_messages : List (String × Option String)
  rebuilds : Nat
  deriving DecidableEq, Repr

/-- The remote service as seen over the bus: every D-Bus call the handlers
make, as a total function.  `pri_low` models `g15screen.PRI_LOW`, the low
priority threshold imported from `gnome15/g15screen.py` (that module is not
part of the sources; the spec only calls it "the low threshold", so it is
kept abstract).  `getDeviceInformation` returns the tuple
`(uid, model_name, usb_id, model_fullname)`. -/
structure Remote where
  getDeviceInformation : String → String × String × String × String
  isAttentionRequested : String → Bool
  getMessage : String → String
  getPriority : Int → Int
  getSequenceNumber : Int → Int
  getTitle : Int → String
  getScreens : List String
  getPageSequenceNumbers : String → Int → List Int
  pri_low : Int

/-- What `check_attention` tells the GUI adapter: either `clear_attention()`
or `attention(message)`. -/
inductive DisplayAction where
  | clear : DisplayAction
  | attention : Option String → DisplayAction
  deriving DecidableEq, Repr

/-- `G15DesktopComponent.check_attention` (lines 154-165): with an empty
attention map call `clear_attention()`, otherwise call `attention` with the
message of the first entry in iteration order.  The cache is not mutated;
the returned pair is (unchanged state, display action). -/
def check_attention (s : ComponentState) : ComponentState × DisplayAction :=
  match s.attention_messages with
  | [] => (s, DisplayAction.clear)
  | (_, message) :: _ => (s, DisplayAction.attention message)

/-- `G15DesktopComponent._attention_requested` (lines 261-264): insert only
when the key is absent, and rebuild only then. -/
def attention_requested (screen_path : String) (message : Option String)
    (s : ComponentState) : ComponentState :=
  if memA s.attention_messages screen_path then s
  else { s with
          attention_messages := setA s.attention_messages screen_path message,
          rebuilds := s.rebuilds + 1 }

/-- `G15DesktopComponent._attention_cleared` (lines 256-259): delete only
when the key is present, and rebuild only then. -/
def attention_cleared (screen_path : String) (s : ComponentState) : ComponentState :=
  if memA s.attention_messages screen_path then
    { s with
        attention_messages := eraseA s.attention_messages screen_path,
        rebuilds := s.rebuilds + 1 }
  else s

/-- `G15DesktopComponent._remove_screen` (lines 279-285): delete the cache
entry when present (the `except dbus.DBusException: pass` around the local
dict deletion can never fire, so the handler is total), then rebuild
unconditionally. -/
def remove_screen (screen_path : String) (s : ComponentState) : ComponentState :=
  let s1 :=
    if memA s.screens screen_path then
      { s with screens := eraseA s.screens screen_path }
    else s
  { s1 with rebuilds := s1.rebuilds + 1 }

/-- `G15DesktopComponent._add_screen` (lines 287-294): fetch device info,
build a fresh `G15Screen` (empty `items`, `message = None`), store it under
the path, then if the remote screen has attention requested overwrite the
new screen object's `message` with the fetched remote message.  No rebuild
call appears in this handler. -/
def add_screen (env : Remote) (screen_path : String) (s : ComponentState) :
    ComponentState :=
  let info := env.getDeviceInformation screen_path
  let device_uid := info.1
  let device_model_fullname := info.2.2.2
  let screen : G15Screen :=
    { path := screen_path
      device_model_fullname := device_model_fullname
      device_uid := device_uid
      items := []
      message := none }
  let screen :=
    if env.isAttentionRequested screen_path then
      { screen with message := some (env.getMessage screen_path) }
    else screen
  { s with screens := setA s.screens screen_path screen }

/-- `G15DesktopComponent._add_page` (lines 352-358): `seq_no` is the remote
page's `GetSequenceNumber()` rendered with `str`; looking up
`self.screens[screen_path]` raises `KeyError` when the screen is absent.
Insert the page title, and rebuild, only when `seq_no` is not yet present. -/
def add_page (env : Remote) (screen_path : String) (page_seq : Int)
    (s : ComponentState) : Except ComponentState ComponentState :=
  match lookupA s.screens screen_path with
  | none => Except.error s
  | some scr =>
      let seq_no := toString (env.getSequenceNumber page_seq)
      if memA scr.items seq_no then Except.ok s
      else
        Except.ok
          { s with
              screens := setA s.screens screen_path
                { scr with items := setA scr.items seq_no (env.getTitle page_seq) },
              rebuilds := s.rebuilds + 1 }

/-- `G15DesktopComponent._page_created` (lines 226-234): fetch the page's
priority; when it is at least `PRI_LOW`, delegate to `_add_page` (the
page title argument of the signal is ignored by the code). -/
def page_created (env : Remote) (screen_path : String) (page_seq : Int)
    (_page_title : String) (s : ComponentState) :
    Except ComponentState ComponentState :=
  if env.pri_low ≤ env.getPriority page_seq then
    add_page env screen_path page_seq s
  else Except.ok s

/-- `G15DesktopComponent._page_title_changed` (lines 236-242): overwrite
`items[str(seq)]` with the new title and rebuild; raises `KeyError` when the
screen path is absent from the cache. -/
def page_title_changed (screen_path : String) (page_seq : Int) (title : String)
    (s : ComponentState) : Except ComponentState ComponentState :=
  match lookupA s.screens screen_path with
  | none => Except.error s
  | some scr =>
      Except.ok
        { s with
            screens := setA s.screens screen_path
              { scr with items := setA scr.items (toString page_seq) title },
            rebuilds := s.rebuilds + 1 }

/-- `G15DesktopComponent._page_deleting` (lines 244-254): look up the
screen (raising `KeyError` when absent), then delete `items[str(seq)]` and
rebuild only when that page key is present. -/
def page_deleting (screen_path : String) (page_seq : Int)
    (s : ComponentState) : Except ComponentState ComponentState :=
  match lookupA s.screens screen_path with
  | none => Except.error s
  | some scr =>
      let page_item_key := toString page_seq
      if memA scr.items page_item_key then
        Except.ok
          { s with
              screens := setA s.screens screen_path
                { scr with items := eraseA scr.items page_item_key },
              rebuilds := s.rebuilds + 1 }
      else Except.ok s

/-- `G15DesktopComponent._reset_attention` (lines 348-350): clear the
attention map and rebuild. -/
def reset_attention (s : ComponentState) : ComponentState :=
  { s with attention_messages := [], rebuilds := s.rebuilds + 1 }

/-- `G15DesktopComponent._disconnect` (lines 327-346), after the signal
unsubscriptions (which have no cache effect): only when the service handle
is present AND `self.connected` is still true, remove every screen (each
removal via `_remove_screen`, iterating over a snapshot `dict(self.screens)`
of the keys); then reset attention, post the synthetic
`("service", "g15-desktop-service is not running.")` attention entry, drop
the service handle, clear `connected`, and rebuild once more. -/
def disconnect (s : ComponentState) : ComponentState :=
  let s1 :=
    if s.service.isSome && s.connected then
      (s.screens.map Prod.fst).foldl (fun st p => remove_screen p st) s
    else s
  let s2 := reset_attention s1
  let s3 := attention_requested "service"
    (some "g15-desktop-service is not running.") s2
  { s3 with service := none, connected := false, rebuilds := s3.rebuilds + 1 }

/-- `G15DesktopComponent._connect` (lines 296-325): reset attention, take
the service handle, set `connected`, then for each remote screen add it and
add every page whose sequence number is listed for `PRI_LOW` and whose
priority is confirmed to be at least `PRI_LOW`; finally rebuild once. -/
def connect (env : Remote) (s : ComponentState) :
    Except ComponentState ComponentState := do
  let s0 := reset_attention s
  let s1 : ComponentState := { s0 with service := some (), connected := true }
  let s2 ← env.getScreens.foldlM
    (fun st screen_path => do
      let st1 := add_screen env screen_path st
      (env.getPageSequenceNumbers screen_path env.pri_low).foldlM
        (fun st2 page_seq =>
          if env.pri_low ≤ env.getPriority page_seq then
            add_page env screen_path page_seq st2
          else pure st2) st1) s1
  pure { s2 with rebuilds := s2.rebuilds + 1 }

/-- `G15DesktopComponent._name_owner_changed` (lines 216-224): on ownership
acquired (`old_owner == ""`) connect when no service handle is held; on
ownership lost, when a service handle is held, set `connected = False` and
then call `_disconnect`. -/
def name_owner_changed (env : Remote) (name old_owner _new_owner : String)
    (s : ComponentState) : Except ComponentState ComponentState :=
  if name = "org.gnome15.Gnome15" then
    if old_owner = "" then
      if s.service.isNone then connect env s else Except.ok s
    else
      if s.service.isSome then
        Except.ok (disconnect { s with connected := false })
      else Except.ok s
  else Except.ok s

/-! ### Association-list lemmas -/

theorem lookupA_setA_self {α : Type} (m : List (String × α)) (k : String) (v : α) :
    lookupA (setA m k v) k = some v := by
  induction m with
  | nil => simp [setA, lookupA]
  | cons p rest ih =>
      obtain ⟨k2, v2⟩ := p
      by_cases h : k2 = k <;> simp [setA, lookupA, h, ih]

theorem lookupA_eraseA_self {α : Type} (m : List (String × α)) (k : String) :
    lookupA (eraseA m k) k = none := by
  induction m with
  | nil => rfl
  | cons p rest ih =>
      obtain ⟨k2, v2⟩ := p
      by_cases h : k2 = k <;> simp [eraseA, lookupA, h, ih]

theorem lookupA_eraseA_ne {α : Type} (m : List (String × α)) (k p : String)
    (h : p ≠ k) : lookupA (eraseA m k) p = lookupA m p := by
  induction m with
  | nil => rfl
  | cons q rest ih =>
      obtain ⟨k2, v2⟩ := q
      by_cases h2 : k2 = k
      · simp [eraseA, lookupA, h2, ih, Ne.symm h]
      · by_cases h3 : k2 = p <;> simp [eraseA, lookupA, h2, h3, ih, h]

theorem lookupA_none_of_memA_false {α : Type} (m : List (String × α)) (k : String)
    (h : memA m k = false) : lookupA m k = none := by
  unfold memA at h
  cases hl : lookupA m k with
  | none => rfl
  | some v => rw [hl] at h; simp at h

/-- The entry `add_screen` leaves under the path, for any prior state. -/
theorem lookupA_add_screen (env : Remote) (sp : String) (s : ComponentState) :
    lookupA (add_screen env sp s).screens sp =
      some { path := sp
             device_model_fullname := (env.getDeviceInformation sp).2.2.2
             device_uid := (env.getDeviceInformation sp).1
             items := []
             message := if env.isAttentionRequested sp then
                 some (env.getMessage sp) else none } := by
  unfold add_screen
  by_cases h : env.isAttentionRequested sp <;> simp [h, lookupA_setA_self]

/-! ### Concrete states and environments used as inputs -/

/-- A remote environment matching the scenario of spec section 8: one
screen, device info `("U1", "Model1", "usb1", "Model One")`, page 5 with
title "Weather" and a priority above the low threshold, no attention. -/
def envA : Remote :=
  { getDeviceInformation := fun _ => ("U1", "Model1", "usb1", "Model One")
    isAttentionRequested := fun _ => false
    getMessage := fun _ => ""
    getPriority := fun _ => 50
    getSequenceNumber := fun n => n
    getTitle := fun _ => "Weather"
    getScreens := ["/org/gnome15/Screen0"]
    getPageSequenceNumbers := fun _ _ => [5]
    pri_low := 20 }

/-- Like `envA` but the remote screen has attention requested with message
"Battery low". -/
def envB : Remote :=
  { envA with
      isAttentionRequested := fun _ => true
      getMessage := fun _ => "Battery low" }

/-- A connected component with no screens and no attention. -/
def st0 : ComponentState :=
  { screens := []
    service := some ()
    connected := true
    attention_messages := []
    rebuilds := 0 }

/-- A cached screen whose `items` already holds page "5". -/
def screen1 : G15Screen :=
  { path := "/org/gnome15/Screen0"
    device_model_fullname := "Model One"
    device_uid := "U1"
    items := [("5", "Weather")]
    message := none }

/-- A connected component caching `screen1`. -/
def stConnected : ComponentState :=
  { screens := [("/org/gnome15/Screen0", screen1)]
    service := some ()
    connected := true
    attention_messages := []
    rebuilds := 0 }

/-- A connected component with one pending attention message. -/
def stAtt : ComponentState :=
  { screens := []
    service := some ()
    connected := true
    attention_messages := [("/org/gnome15/Screen0", some "Low battery")]
    rebuilds := 0 }

/-! ### Claim theorems -/

/-- Claim C3: `_add_screen` (the ScreenAdded handler), when the remote
screen has attention requested, fetches the remote message and stores it
only in the new `G15Screen.message` field; the attention map (and the
rebuild count) is left unchanged by the handler for every input. -/
theorem add_screen_attention_frame (env : Remote) (sp : String)
    (s : ComponentState) :
    (add_screen env sp s).attention_messages = s.attention_messages ∧
    (add_screen env sp s).rebuilds = s.rebuilds ∧
    lookupA (add_screen env sp s).screens sp =
      some { path := sp
             device_model_fullname := (env.getDeviceInformation sp).2.2.2
             device_uid := (env.getDeviceInformation sp).1
             items := []
             message := if env.isAttentionRequested sp then
                 some (env.getMessage sp) else none } :=
  ⟨rfl, rfl, lookupA_add_screen env sp s⟩

/-- Claim C4: `_page_created` fetches the page's priority and inserts the
page title into the screen's `items` map exactly when the priority is at
least `PRI_LOW` and the sequence-number key is not already present; the
rebuild hook fires exactly when the insertion happened. -/
theorem page_created_inserts_iff (env : Remote) (sp : String) (seq : Int)
    (title : String) (s : ComponentState) (scr : G15Screen)
    (h : lookupA s.screens sp = some scr) :
    page_created env sp seq title s =
      (if env.pri_low ≤ env.getPriority seq ∧
          memA scr.items (toString (env.getSequenceNumber seq)) = false then
        Except.ok
          { s with
              screens := setA s.screens sp
                { scr with
                    items := setA scr.items (toString (env.getSequenceNumber seq))
                      (env.getTitle seq) }
              rebuilds := s.rebuilds + 1 }
      else Except.ok s) := by
  unfold page_created add_page
  rw [h]
  by_cases hp : env.pri_low ≤ env.getPriority seq <;>
    by_cases hm : memA scr.items (toString (env.getSequenceNumber seq)) <;>
    simp [hp, hm]

/-- Witness for C4 at a concrete input: the page key "5" is already cached
for the screen, so `_page_created` leaves the state unchanged. -/
theorem page_created_inserts_iff_witness :
    page_created envA "/org/gnome15/Screen0" 5 "Weather" stConnected =
      Except.ok stConnected := by
  rw [page_created_inserts_iff envA "/org/gnome15/Screen0" 5 "Weather"
    stConnected screen1 rfl]
  rfl

/-- Claim C5: `check_attention` invokes `clear_attention` exactly when the
attention map is empty, otherwise invokes `attention` with the message of
the first entry in iteration order; it is idempotent: a second call on the
unchanged state produces the same display output. -/
theorem check_attention_spec (s : ComponentState) :
    (s.attention_messages = [] → check_attention s = (s, DisplayAction.clear)) ∧
    (∀ k m rest, s.attention_messages = (k, m) :: rest →
        check_attention s = (s, DisplayAction.attention m)) ∧
    (check_attention (check_attention s).1).2 = (check_attention s).2 := by
  refine ⟨fun h => by simp [check_attention, h],
          fun k m rest h => by simp [check_attention, h], ?_⟩
  rcases hm : s.attention_messages with _ | ⟨⟨k, m⟩, rest⟩ <;>
    simp [check_attention, hm]

/-- Witness for C5 at a concrete input: one pending message is displayed. -/
theorem check_attention_spec_witness :
    check_attention stAtt = (stAtt, DisplayAction.attention (some "Low battery")) :=
  (check_attention_spec stAtt).2.1 "/org/gnome15/Screen0" (some "Low battery")
    [] rfl

/-- Claim C6: `_page_title_changed` unconditionally overwrites
`items[str(seq)]` with the new title and always rebuilds; when the screen
path is absent from the cache it raises an unhandled `KeyError` (state
unchanged, no rebuild) instead of no-opping. -/
theorem page_title_changed_spec (sp : String) (seq : Int) (title : String)
    (s : ComponentState) :
    (∀ scr, lookupA s.screens sp = some scr →
      page_title_changed sp seq title s =
        Except.ok
          { s with
              screens := setA s.screens sp
                { scr with items := setA scr.items (toString seq) title }
              rebuilds := s.rebuilds + 1 }) ∧
    (lookupA s.screens sp = none →
      page_title_changed sp seq title s = Except.error s) := by
  constructor
  · intro scr h
    unfold page_title_changed
    rw [h]
  · intro h
    unfold page_title_changed
    rw [h]

/-- Witness for C6 at a concrete input: the cached title of page "5" is
overwritten and the rebuild hook fires. -/
theorem page_title_changed_spec_witness :
    page_title_changed "/org/gnome15/Screen0" 5 "News" stConnected =
      Except.ok
        { stConnected with
            screens := setA stConnected.screens "/org/gnome15/Screen0"
              { screen1 with items := setA screen1.items "5" "News" }
            rebuilds := stConnected.rebuilds + 1 } :=
  (page_title_changed_spec "/org/gnome15/Screen0" 5 "News" stConnected).1
    screen1 rfl

/-- Claim C7: `_remove_screen` deletes the cache entry for the path when
present, never raises (the `except` around the local dict deletion swallows
any fault of the deletion step), leaves every other entry and the attention
map untouched, and invokes the rebuild hook on every call, including when
the path was absent. -/
theorem remove_screen_spec (sp : String) (s : ComponentState) :
    (remove_screen sp s).rebuilds = s.rebuilds + 1 ∧
    lookupA (remove_screen sp s).screens sp = none ∧
    (∀ p, p ≠ sp → lookupA (remove_screen sp s).screens p = lookupA s.screens p) ∧
    (remove_screen sp s).attention_messages = s.attention_messages := by
  by_cases h : memA s.screens sp
  · refine ⟨by simp [remove_screen, h], by simp [remove_screen, h, lookupA_eraseA_self],
      fun p hp => by simp [remove_screen, h, lookupA_eraseA_ne _ _ _ hp],
      by simp [remove_screen, h]⟩
  · refine ⟨by simp [remove_screen, h], ?_, fun p hp => by simp [remove_screen, h],
      by simp [remove_screen, h]⟩
    simp [remove_screen, h]
    exact lookupA_none_of_memA_false _ _ (by simpa using h)

/-- Witness for C7 at a concrete input: removing an unknown path leaves the
cached screen in place (and, by the theorem, still rebuilds). -/
theorem remove_screen_spec_witness :
    lookupA (remove_screen "/org/gnome15/Screen1" stConnected).screens
        "/org/gnome15/Screen0" =
      lookupA stConnected.screens "/org/gnome15/Screen0" :=
  (remove_screen_spec "/org/gnome15/Screen1" stConnected).2.2.1
    "/org/gnome15/Screen0" (by decide)

/-- Claim C8: `_attention_requested` inserts its message into the attention
map only when the source key is absent (an existing entry is never
overwritten), and `_attention_cleared` removes the key only when present;
in both handlers the rebuild hook fires exactly when the map was mutated. -/
theorem attention_handlers_spec (sp : String) (m : Option String)
    (s : ComponentState) :
    (memA s.attention_messages sp = true →
      attention_requested sp m s = s ∧
      attention_cleared sp s =
        { s with
            attention_messages := eraseA s.attention_messages sp
            rebuilds := s.rebuilds + 1 }) ∧
    (memA s.attention_messages sp = false →
      attention_requested sp m s =
        { s with
            attention_messages := setA s.attention_messages sp m
            rebuilds := s.rebuilds + 1 } ∧
      attention_cleared sp s = s) := by
  constructor <;> intro h <;>
    exact ⟨by simp [attention_requested, h], by simp [attention_cleared, h]⟩

/-- Witness for C8 at a concrete input: a new source key is inserted and
the rebuild hook fires. -/
theorem attention_handlers_spec_witness :
    attention_requested "/org/gnome15/Screen0" (some "Low battery") st0 =
      { st0 with
          attention_messages :=
            setA st0.attention_messages "/org/gnome15/Screen0" (some "Low battery")
          rebuilds := st0.rebuilds + 1 } :=
  ((attention_handlers_spec "/org/gnome15/Screen0" (some "Low battery") st0).2
    rfl).1

/-- Claim C10: `_page_deleting` invoked for a screen path absent from the
cache raises an unhandled `KeyError` at the screen lookup, before its
"remove if present" guard (which concerns only the page-sequence key) runs;
the state, and in particular the rebuild count, is unchanged. -/
theorem page_deleting_unknown_screen (sp : String) (seq : Int)
    (s : ComponentState) (h : lookupA s.screens sp = none) :
    page_deleting sp seq s = Except.error s := by
  unfold page_deleting
  rw [h]

/-- Witness for C10 at a concrete input: deleting a page of an unknown
screen faults with the state unchanged. -/
theorem page_deleting_unknown_screen_witness :
    page_deleting "/org/gnome15/Screen9" 5 stConnected =
      Except.error stConnected :=
  page_deleting_unknown_screen "/org/gnome15/Screen9" 5 stConnected rfl

/-- Claim C1 (evaluation of the code at the failing input): with one cached
screen while connected, losing bus ownership of "org.gnome15.Gnome15" runs
`_name_owner_changed`, which sets `connected = False` BEFORE calling
`_disconnect`; `_disconnect`'s screen-removal loop is guarded by
`self.service != None and self.connected` and is therefore skipped, so the
stale screen entry survives, while the attention map does receive exactly
the synthetic `("service", "g15-desktop-service is not running.")` entry
and the component transitions to Disconnected. -/
theorem owner_lost_keeps_stale_screens :
    (name_owner_changed envA "org.gnome15.Gnome15" ":1.7" "" stConnected).toOption.map
        (fun t => (t.screens.map Prod.fst, t.attention_messages, t.service,
          t.connected)) =
      some (["/org/gnome15/Screen0"],
            [("service", some "g15-desktop-service is not running.")],
            none, false) := by
  rfl

/-- Counterexample for C2 as stated: `_add_screen` (the ScreenAdded
handler) inserts a new screen into the cache yet leaves the rebuild count
unchanged, i.e. it does not trigger a rebuild before returning. -/
theorem add_screen_no_rebuild_cex :
    (add_screen envA "/org/gnome15/Screen0" st0).screens ≠ st0.screens ∧
    (add_screen envA "/org/gnome15/Screen0" st0).rebuilds = st0.rebuilds := by
  constructor
  · decide
  · rfl

/-- Claim C2 (amended): every reconciliation handler that mutates cached
state ends by invoking the rebuild hook — each handler either leaves the
state unchanged (possibly raising with the state unchanged) or returns with
the rebuild count incremented — EXCEPT `_add_screen`, which inserts a new
`G15Screen` into the cache and returns without invoking the rebuild hook
(`_remove_screen` rebuilds even when it removed nothing). -/
theorem handlers_rebuild_on_mutation (env : Remote) (sp : String) (seq : Int)
    (title : String) (m : Option String) (s : ComponentState) :
    ((add_screen env sp s).rebuilds = s.rebuilds ∧
      memA (add_screen env sp s).screens sp = true) ∧
    (page_created env sp seq title s = Except.ok s ∨
      page_created env sp seq title s = Except.error s ∨
      ∃ t, page_created env sp seq title s = Except.ok t ∧
        t.rebuilds = s.rebuilds + 1) ∧
    (page_title_changed sp seq title s = Except.error s ∨
      ∃ t, page_title_changed sp seq title s = Except.ok t ∧
        t.rebuilds = s.rebuilds + 1) ∧
    (page_deleting sp seq s = Except.ok s ∨
      page_deleting sp seq s = Except.error s ∨
      ∃ t, page_deleting sp seq s = Except.ok t ∧
        t.rebuilds = s.rebuilds + 1) ∧
    (attention_requested sp m s = s ∨
      (attention_requested sp m s).rebuilds = s.rebuilds + 1) ∧
    (attention_cleared sp s = s ∨
      (attention_cleared sp s).rebuilds = s.rebuilds + 1) ∧
    (remove_screen sp s).rebuilds = s.rebuilds + 1 := by
  refine ⟨⟨rfl, by simp [memA, lookupA_add_screen]⟩, ?_, ?_, ?_, ?_, ?_, ?_⟩
  · unfold page_created add_page
    by_cases hp : env.pri_low ≤ env.getPriority seq
    · rcases hl : lookupA s.screens sp with _ | scr
      · exact Or.inr (Or.inl (by simp [hp]))
      · by_cases hm : memA scr.items (toString (env.getSequenceNumber seq))
        · exact Or.inl (by simp [hp, hm])
        · exact Or.inr (Or.inr
            ⟨{ s with
                screens := setA s.screens sp
                  { scr with
                      items := setA scr.items (toString (env.getSequenceNumber seq))
                        (env.getTitle seq) }
                rebuilds := s.rebuilds + 1 },
              by simp [hp, hl, hm], rfl⟩)
    · exact Or.inl (by simp [hp])
  · unfold page_title_changed
    rcases hl : lookupA s.screens sp with _ | scr
    · exact Or.inl rfl
    · exact Or.inr ⟨_, rfl, rfl⟩
  · unfold page_deleting
    rcases hl : lookupA s.screens sp with _ | scr
    · exact Or.inr (Or.inl rfl)
    · by_cases hm : memA scr.items (toString seq)
      · exact Or.inr (Or.inr
          ⟨{ s with
              screens := setA s.screens sp
                { scr with items := eraseA scr.items (toString seq) }
              rebuilds := s.rebuilds + 1 },
            by simp [hl, hm], rfl⟩)
      · exact Or.inl (by simp [hm])
  · by_cases h : memA s.attention_messages sp
    · exact Or.inl (by simp [attention_requested, h])
    · exact Or.inr (by simp [attention_requested, h])
  · by_cases h : memA s.attention_messages sp
    · exact Or.inr (by simp [attention_cleared, h])
    · exact Or.inl (by simp [attention_cleared, h])
  · by_cases h : memA s.screens sp <;> simp [remove_screen, h]

/-- Counterexample for C9 as stated: re-adding a cached screen whose remote
object has attention requested replaces it with a screen whose `message` is
the fetched remote message, not `None`. -/
theorem add_screen_readd_message_cex :
    memA stConnected.screens "/org/gnome15/Screen0" = true ∧
    (lookupA (add_screen envB "/org/gnome15/Screen0" stConnected).screens
        "/org/gnome15/Screen0").map G15Screen.message =
      some (some "Battery low") ∧
    (lookupA (add_screen envB "/org/gnome15/Screen0" stConnected).screens
        "/org/gnome15/Screen0").map G15Screen.message ≠
      some (none : Option String) := by
  refine ⟨rfl, rfl, by decide⟩

/-- Claim C9 (amended): for every screen path already present in the cache,
invoking `_add_screen` again for that path replaces the cached `G15Screen`
with a freshly constructed one whose `items` map is empty — discarding
every previously cached page entry — and whose `message` is `None` unless
the remote screen has attention requested, in which case it is the freshly
fetched remote message. -/
theorem add_screen_readd_replaces (env : Remote) (sp : String)
    (s : ComponentState) (h : memA s.screens sp = true) :
    lookupA (add_screen env sp s).screens sp =
      some { path := sp
             device_model_fullname := (env.getDeviceInformation sp).2.2.2
             device_uid := (env.getDeviceInformation sp).1
             items := []
             message := if env.isAttentionRequested sp then
                 some (env.getMessage sp) else none } :=
  lookupA_add_screen env sp s

/-- Witness for C9 at a concrete input: the cached page entry for "5" is
discarded and the message holds the fetched remote text. -/
theorem add_screen_readd_replaces_witness :
    lookupA (add_screen envB "/org/gnome15/Screen0" stConnected).screens
        "/org/gnome15/Screen0" =
      some { path := "/org/gnome15/Screen0"
             device_model_fullname := "Model One"
             device_uid := "U1"
             items := []
             message := some "Battery low" } :=
  add_screen_readd_replaces envB "/org/gnome15/Screen0" stConnected rfl

end G15Desktop
